import Mathlib

/-!
# Verification of `wifi_monitor.py`

A shallow embedding of the Wi-Fi monitor command-line tool, together with
theorems checking its specification.

Modelling conventions:
* Python `float` values are modelled as exact rationals (`ℚ`); all values
  appearing in the properties below are exactly representable, so no
  rounding behaviour is lost.
* Python `int` counters are modelled as `Int` (they are unbounded).
* The external command runner (`run_cmd`) is an explicit parameter
  `run : String → CmdResult`, and the counter source (`psutil`) is an
  explicit association list, matching the spec's treatment of both as
  opaque collaborators.
* `print`, `print(..., file=sys.stderr)` and `sys.exit(n)` are modelled by
  an explicit trace of stdout lines, stderr lines, commands issued, and an
  optional exit status.
* Python truthiness of `None` / strings / lists (used by the `or`
  expressions in the source) is modelled by the `PyVal` type; a Python
  f-string renders a list via its `repr`, which `pyRender` reproduces
  (interface names contain no quote or escape characters).
-/

namespace WifiMonitor

/-- Result of the external command runner: exit code, stdout, stderr
(already stripped, as `run_cmd` returns them). -/
structure CmdResult where
  rc : Int
  out : String
  err : String

/-- The unit suffix table `sizes = ["B", "KB", "MB", "GB", "TB"]`. -/
def sizes : List String := ["B", "KB", "MB", "GB", "TB"]

/-- The `while f >= 1024 and i < len(sizes) - 1` loop of `human_bytes`.
`fuel` is the remaining headroom `len(sizes) - 1 - i`, so `fuel > 0` is
exactly the loop condition `i < len(sizes) - 1`; `i` is the unit index. -/
def hbGo (f : ℚ) (i fuel : Nat) : ℚ × Nat :=
  match fuel with
  | 0 => (f, i)
  | fuel' + 1 => if 1024 ≤ f then hbGo (f / 1024) (i + 1) fuel' else (f, i)

/-- Round a rational to the nearest integer, ties to even (the rounding
used by Python `format(f, '.2f')` on exactly representable values). -/
def rndHalfEven (x : ℚ) : Int :=
  let n := ⌊x⌋
  let fr := x - n
  if 1 / 2 < fr then n + 1
  else if fr < 1 / 2 then n
  else if n % 2 = 0 then n else n + 1

/-- Render a natural number as two digits, left-padded with a zero. -/
def twoDigits (r : Nat) : String :=
  if r < 10 then "0" ++ toString r else toString r

/-- Python `f"{f:.2f}"`: fixed-point rendering with exactly two digits
after the decimal point. -/
def formatTwoDec (q : ℚ) : String :=
  if q < 0 then
    let c := (rndHalfEven (-q * 100)).toNat
    "-" ++ toString (c / 100) ++ "." ++ twoDigits (c % 100)
  else
    let c := (rndHalfEven (q * 100)).toNat
    toString (c / 100) ++ "." ++ twoDigits (c % 100)

/-- The function human_bytes: divide by 1024 while the value is at
least 1024 and a larger unit remains, then format with two decimals and
the unit suffix. -/
def human_bytes (n : ℚ) : String :=
  let fi := hbGo n 0 (sizes.length - 1)
  formatTwoDec fi.1 ++ " " ++ sizes.getD fi.2 ""

/-- Lowercasing as Python `str.lower()` on ASCII names. -/
def lowerStr (s : String) : String :=
  String.mk (s.data.map Char.toLower)

/-- Python `pat in s` on strings: `pat` occurs as a contiguous substring. -/
def hasSub (pat : List Char) : List Char → Bool
  | [] => pat.isEmpty
  | c :: rest => pat.isPrefixOf (c :: rest) || hasSub pat rest

/-- The per-name test of `detect_wifi_like_interfaces` (source line 42):
`ln.startswith("wl") or ln.startswith("wlan") or ln in ("en0", "en1") or
"wi-fi" in ln or "wifi" in ln` on the lowercased name. -/
def wifiName (n : String) : Bool :=
  let ln := lowerStr n
  "wl".toList.isPrefixOf ln.toList || "wlan".toList.isPrefixOf ln.toList ||
    ln == "en0" || ln == "en1" ||
    hasSub "wi-fi".toList ln.toList || hasSub "wifi".toList ln.toList

/-- The accumulation loop of `detect_wifi_like_interfaces`: append each
matching name to `candidates`, preserving order. -/
def collectWifi : List String → List String
  | [] => []
  | n :: rest => if wifiName n then n :: collectWifi rest else collectWifi rest

/-- The function detect_wifi_like_interfaces applied to the enumerated
names: `return candidates or names` falls back to the full list when no
name matches. -/
def detect_wifi_like_interfaces (names : List String) : List String :=
  let candidates := collectWifi names
  if candidates = [] then names else candidates

/-! ## Python value model

The fallback-interface expression on source lines 98 and 174,
`iface_hint or (detect_wifi_like_interfaces() if detect_wifi_like_interfaces() else None)`,
can produce a string (the hint), a list (the classifier result), or None.
PyVal models this union together with Python truthiness and the f-string
rendering of each shape. -/

/-- A Python value that can end up bound to `iface`. -/
inductive PyVal where
  | str (s : String)
  | list (l : List String)
  | pynone
deriving DecidableEq

/-- Python truthiness: empty string, empty list and None are falsy. -/
def pyTruthy : PyVal → Bool
  | .str s => !(s == "")
  | .list l => !l.isEmpty
  | .pynone => false

/-- How a Python f-string renders the value: a string as itself, a list as
its repr with single-quoted elements, None as "None". -/
def pyRender : PyVal → String
  | .str s => s
  | .list l => "[" ++ String.intercalate ", " (l.map (fun x => "'" ++ x ++ "'")) ++ "]"
  | .pynone => "None"

/-- Python `s or d` on strings: `d` when `s` is empty. -/
def pyOr (s d : String) : String := if s == "" then d else s

/-- Truthiness of an optional string argument (absent or empty is falsy). -/
def hintTruthy : Option String → Bool
  | none => false
  | some s => !(s == "")

/-- The expression
`iface_hint or (detect_wifi_like_interfaces() if detect_wifi_like_interfaces() else None)`
shared by `wifi_power` (line 98) and `do_monitor` (line 174). -/
def resolveIface (hint : Option String) (interfaces : List String) : PyVal :=
  if hintTruthy hint then .str (hint.getD "")
  else
    let d := detect_wifi_like_interfaces interfaces
    if d.isEmpty then .pynone else .list d

/-! ## Counter source adapter -/

/-- Lookup in the per-interface counter mapping (an insertion-ordered
dict of name to (bytes_recv, bytes_sent)). -/
def lookupCtr (s : String) : List (String × Int × Int) → Option (Int × Int)
  | [] => none
  | (k, v) :: rest => if k == s then some v else lookupCtr s rest

/-- A raised Python exception, as relevant here. -/
inductive PyExc where
  | valueError (msg : String)
  | typeError (msg : String)
deriving DecidableEq

/-- The message of the ValueError raised on source line 32. -/
def availMsg (iface : PyVal) (counters : List (String × Int × Int)) : String :=
  "Interface '" ++ pyRender iface ++ "' not found. Available: " ++
    String.intercalate ", " (counters.map Prod.fst)

/-- The function get_iface_counters: membership test `iface not in counters`
hashes the key, so a list argument raises TypeError (lists are unhashable);
a missing key raises the ValueError of line 32; otherwise the pair
(bytes_recv, bytes_sent) is returned. -/
def get_iface_counters (iface : PyVal) (counters : List (String × Int × Int)) :
    Except PyExc (Int × Int) :=
  match iface with
  | .list _ => .error (.typeError "unhashable type: 'list'")
  | .pynone => .error (.valueError (availMsg .pynone counters))
  | .str s =>
      match lookupCtr s counters with
      | some v => .ok v
      | none => .error (.valueError (availMsg (.str s) counters))

/-! ## Sampling loop -/

/-- Outcome of entering monitor_interface: exit with a status and a stderr
message, crash on an uncaught exception, or reach the sampling loop with
the initial counter snapshot. -/
inductive MonOutcome where
  | exited (code : Nat) (msg : String)
  | uncaught (exc : PyExc)
  | monitoring (iface : PyVal) (interval : ℚ) (prevRx prevTx : Int)
deriving DecidableEq

/-- Lines 46 to 52 of monitor_interface: the initial read, whose ValueError
is caught and turned into exit status 2; any other exception propagates. -/
def monitor_interface (iface : PyVal) (interval : ℚ)
    (counters : List (String × Int × Int)) : MonOutcome :=
  match get_iface_counters iface counters with
  | .error (.valueError m) => .exited 2 m
  | .error (.typeError m) => .uncaught (.typeError m)
  | .ok (rx, tx) => .monitoring iface interval rx tx

/-- The monitor subcommand handler do_monitor (lines 173 to 178). -/
def do_monitor (hint : Option String) (interval : ℚ) (interfaces : List String)
    (counters : List (String × Int × Int)) : MonOutcome :=
  let iface := resolveIface hint interfaces
  if !pyTruthy iface then .exited 10 "No interfaces found."
  else monitor_interface iface interval counters

/-- Counter snapshot of one interface: cumulative received and sent bytes. -/
structure Snapshot where
  rx : Int
  tx : Int
deriving DecidableEq

/-- What one iteration of the sampling loop computes (lines 64 to 71):
the snapshot that becomes `previous`, the two rates, and the rate strings
as printed (human_bytes plus a "/s" suffix). -/
structure StepResult where
  next : Snapshot
  downRate : ℚ
  upRate : ℚ
  downStr : String
  upStr : String

/-- The loop-body delta computation of monitor_interface: deltas of the
raw counters, divided by the interval; no clamping of any kind. -/
def sampleStep (prev cur : Snapshot) (interval : ℚ) : StepResult :=
  let d_rx : Int := cur.rx - prev.rx
  let d_tx : Int := cur.tx - prev.tx
  let down_s : ℚ := (d_rx : ℚ) / interval
  let up_s : ℚ := (d_tx : ℚ) / interval
  ⟨cur, down_s, up_s, human_bytes down_s ++ "/s", human_bytes up_s ++ "/s"⟩

/-! ## Radio power controller -/

/-- Observable effect of one wifi_power call: stdout lines, stderr lines,
the command lines handed to run_cmd in order, and the exit status if
sys.exit was reached. -/
structure Trace where
  stdout : List String
  stderr : List String
  cmds : List String
  exit : Option Nat
deriving DecidableEq

/-- Python `pat in s` on two strings. -/
def strIn (pat s : String) : Bool := hasSub pat.toList s.toList

/-- The function wifi_power (lines 80 to 131), parameterised by the
platform name, the requested state, the optional interface hint, the
enumerated interfaces and the command runner. An invalid state raises
ValueError (the Except error); otherwise the trace of the dispatch is
returned. -/
def wifi_power (system state : String) (iface_hint : Option String)
    (interfaces : List String) (run : String → CmdResult) : Except String Trace :=
  let osname := lowerStr system
  let st := lowerStr state
  if ¬(st = "on" ∨ st = "off") then .error "state must be 'on' or 'off'"
  else if strIn "linux" osname then
    let c1 := "nmcli radio wifi " ++ st
    let r1 := run c1
    if r1.rc = 0 then
      .ok ⟨[pyOr r1.out ("Wi-Fi " ++ st)], [], [c1], none⟩
    else
      let iface := resolveIface iface_hint interfaces
      if !pyTruthy iface then
        .ok ⟨[], ["Could not determine Wi-Fi interface for fallback."], [c1], some 3⟩
      else
        let cmd := "sudo ip link set " ++ pyRender iface ++ " " ++
          (if st = "on" then "up" else "down")
        let r2 := run cmd
        if r2.rc ≠ 0 then
          .ok ⟨["nmcli failed, falling back to: " ++ cmd],
               [pyOr r2.err "Failed to toggle Wi‑Fi"], [c1, cmd], some 4⟩
        else
          .ok ⟨["nmcli failed, falling back to: " ++ cmd,
                pyOr r2.out ("Interface " ++ pyRender iface ++ " " ++
                  (if st = "on" then "up" else "down"))],
               [], [c1, cmd], none⟩
  else if strIn "windows" osname then
    let iface := if hintTruthy iface_hint then iface_hint.getD "" else "Wi-Fi"
    let cmd := "netsh interface set interface \"" ++ iface ++ "\" admin=" ++
      (if st = "on" then "enable" else "disable")
    let r := run cmd
    if r.rc ≠ 0 then
      .ok ⟨[pyOr r.err "Failed to toggle Wi‑Fi"], [], [cmd], some 5⟩
    else
      .ok ⟨[pyOr r.out ("Wi‑Fi " ++ st)], [], [cmd], none⟩
  else if strIn "darwin" osname ∨ strIn "mac" osname then
    let iface := if hintTruthy iface_hint then iface_hint.getD "" else "en0"
    let cmd := "/usr/sbin/networksetup -setairportpower " ++ iface ++ " " ++
      (if st = "on" then "on" else "off")
    let r := run cmd
    if r.rc ≠ 0 then
      .ok ⟨[], [pyOr r.err "Failed to toggle Wi‑Fi"], [cmd], some 6⟩
    else
      .ok ⟨[pyOr r.out ("Wi‑Fi " ++ st ++ " on " ++ iface)], [], [cmd], none⟩
  else
    .ok ⟨[], ["Unsupported OS: " ++ system], [], some 7⟩

/-! ## Monitor-mode controller -/

/-- The monitor-mode subcommand action. -/
inductive MMAction where
  | enable
  | disable
deriving DecidableEq

/-- The ordered three-command sequence of linux_monitor_mode_enable and
linux_monitor_mode_disable: interface down, set driver type, interface up. -/
def monCmds (act : MMAction) (iface : String) : List String :=
  match act with
  | .enable =>
      ["sudo ip link set " ++ iface ++ " down",
       "sudo iw dev " ++ iface ++ " set type monitor",
       "sudo ip link set " ++ iface ++ " up"]
  | .disable =>
      ["sudo ip link set " ++ iface ++ " down",
       "sudo iw dev " ++ iface ++ " set type managed",
       "sudo ip link set " ++ iface ++ " up"]

/-- Exit status used when a command of the sequence fails. -/
def mmExitCode : MMAction → Nat
  | .enable => 8
  | .disable => 9

/-- Observable effect of a monitor-mode invocation. -/
structure MMTrace where
  cmdsRun : List String
  stdout : List String
  stderr : List String
  exit : Option Nat
deriving DecidableEq

/-- The `for c in cmds` loop shared by both monitor-mode helpers: run each
command in order, and on the first non-zero exit code print the failure
(with the command and its stderr) and exit with `code`. -/
def mmRun (run : String → CmdResult) (code : Nat) : List String → MMTrace
  | [] => ⟨[], [], [], none⟩
  | c :: rest =>
    let r := run c
    if r.rc ≠ 0 then ⟨[c], [], ["Failed: " ++ c ++ "\n" ++ r.err], some code⟩
    else
      let t := mmRun run code rest
      ⟨c :: t.cmdsRun, t.stdout, t.stderr, t.exit⟩

/-- linux_monitor_mode_enable (lines 133 to 148). -/
def linux_monitor_mode_enable (iface : String) (run : String → CmdResult) : MMTrace :=
  let t := mmRun run 8 (monCmds .enable iface)
  if t.exit = none then
    { t with stdout := t.stdout ++
        ["Monitor mode requested on " ++ iface ++ ". Verify with: iw dev " ++ iface ++ " info"] }
  else t

/-- linux_monitor_mode_disable (lines 150 to 161). -/
def linux_monitor_mode_disable (iface : String) (run : String → CmdResult) : MMTrace :=
  let t := mmRun run 9 (monCmds .disable iface)
  if t.exit = none then
    { t with stdout := t.stdout ++ ["Managed mode restored on " ++ iface ++ "."] }
  else t

/-- The monitor-mode subcommand handler do_monmode (lines 189 to 196):
reject non-Linux platforms with exit 11 before any command, else dispatch
on the action. -/
def do_monmode (system : String) (act : MMAction) (iface : String)
    (run : String → CmdResult) : MMTrace :=
  if lowerStr system ≠ "linux" then
    ⟨[], [], ["Monitor mode helper is Linux-only."], some 11⟩
  else
    match act with
    | .enable => linux_monitor_mode_enable iface run
    | .disable => linux_monitor_mode_disable iface run

/-- Decidable equality for Except values, used to evaluate the traces. -/
instance {α β : Type} [DecidableEq α] [DecidableEq β] : DecidableEq (Except α β) := fun x y =>
  match x, y with
  | .ok a, .ok b =>
      if h : a = b then .isTrue (by rw [h]) else .isFalse (by intro hh; cases hh; exact h rfl)
  | .error a, .error b =>
      if h : a = b then .isTrue (by rw [h]) else .isFalse (by intro hh; cases hh; exact h rfl)
  | .ok _, .error _ => .isFalse (by intro h; cases h)
  | .error _, .ok _ => .isFalse (by intro h; cases h)

/-! ## Concrete command-runner stubs used in the evaluations -/

/-- A runner on which only the nmcli radio-toggle command fails. -/
def runNmcliFail : String → CmdResult := fun c =>
  if c == "nmcli radio wifi on" then ⟨1, "", "nmcli: not running"⟩ else ⟨0, "", ""⟩

/-- A runner on which every command fails with stderr "boom". -/
def runAllFail : String → CmdResult := fun _ => ⟨1, "ignored", "boom"⟩

/-- A runner on which exactly the second enable-sequence command fails. -/
def wtRun : String → CmdResult := fun c =>
  if c == "sudo iw dev wlan0 set type monitor" then ⟨1, "", "boom"⟩ else ⟨0, "", ""⟩

/-- Closed-form unit index: the number of divisions by 1024 that the
human_bytes loop performs, capped at the index of the last unit (TB). -/
def hbIdx (n : ℚ) : Nat :=
  if n < 1024 then 0
  else if n < 1024 ^ 2 then 1
  else if n < 1024 ^ 3 then 2
  else if n < 1024 ^ 4 then 3
  else 4

/-- C1: the claim says the Linux fallback resolves the target interface to
the FIRST wireless-like name when no hint is given and runs the link-state
command on that single name. The code (line 98) instead binds the whole
classifier list, so the elevated command embeds the Python repr of the
list, never the single name `wlan0`. With a hint the fallback behaves as
claimed. -/
theorem wifi_power_fallback_list_repr :
    wifi_power "Linux" "on" none ["wlan0", "eth0"] runNmcliFail =
      .ok ⟨["nmcli failed, falling back to: sudo ip link set ['wlan0'] up",
            "Interface ['wlan0'] up"],
           [],
           ["nmcli radio wifi on", "sudo ip link set ['wlan0'] up"], none⟩ ∧
    ¬ ("sudo ip link set wlan0 up" ∈
        ["nmcli radio wifi on", "sudo ip link set ['wlan0'] up"]) ∧
    wifi_power "Linux" "on" (some "wlan0") ["wlan0", "eth0"] runNmcliFail =
      .ok ⟨["nmcli failed, falling back to: sudo ip link set wlan0 up",
            "Interface wlan0 up"],
           [],
           ["nmcli radio wifi on", "sudo ip link set wlan0 up"], none⟩ := by
  decide

/-- C2: the claim says that with --iface omitted and an interface present
the sampling loop starts on the auto-selected single name. The code
(line 174) passes the whole classifier list to monitor_interface, whose
dict membership test raises an uncaught TypeError, so the loop never
starts; the no-interface exit 10 and the explicit-hint path behave as
described. -/
theorem do_monitor_autoselect_crash :
    do_monitor none 1 ["wlan0"] [("wlan0", 1000, 500)] =
      .uncaught (.typeError "unhashable type: 'list'") ∧
    do_monitor none 1 [] [] = .exited 10 "No interfaces found." ∧
    do_monitor (some "wlan0") 1 ["wlan0"] [("wlan0", 1000, 500)] =
      .monitoring (.str "wlan0") 1 1000 500 ∧
    do_monitor (some "eth9") 1 ["wlan0"] [("wlan0", 1000, 500)] =
      .exited 2 "Interface 'eth9' not found. Available: wlan0" := by
  decide

/-- C3: each failure path of wifi_power maps to its distinct exit status
(3, 4, 5, 6, 7), and the failure message goes to the error stream on the
Linux, macOS and unsupported-platform paths, but the Windows path prints
the failure message to stdout (its print call lacks file=sys.stderr),
contradicting the claim for that path. -/
theorem wifi_power_failure_streams :
    wifi_power "Linux" "on" none [] runAllFail =
      .ok ⟨[], ["Could not determine Wi-Fi interface for fallback."],
           ["nmcli radio wifi on"], some 3⟩ ∧
    wifi_power "Linux" "on" (some "wlan0") [] runAllFail =
      .ok ⟨["nmcli failed, falling back to: sudo ip link set wlan0 up"],
           ["boom"], ["nmcli radio wifi on", "sudo ip link set wlan0 up"], some 4⟩ ∧
    wifi_power "Windows" "off" none [] runAllFail =
      .ok ⟨["boom"], [],
           ["netsh interface set interface \"Wi-Fi\" admin=disable"], some 5⟩ ∧
    wifi_power "Darwin" "off" none [] runAllFail =
      .ok ⟨[], ["boom"],
           ["/usr/sbin/networksetup -setairportpower en0 off"], some 6⟩ ∧
    wifi_power "SunOS" "on" none [] runAllFail =
      .ok ⟨[], ["Unsupported OS: SunOS"], [], some 7⟩ := by
  decide

/-- C4: setMonitorMode runs the three commands in order; the first
non-zero exit aborts the sequence (later commands never run), surfaces the
command and its stderr on the error stream, and exits 8 (enable) or 9
(disable); success needs all three to exit 0; on a non-Linux platform the
call is rejected with exit 11 before any command runs. -/
theorem mmRun_all_ok (run : String → CmdResult) (code : Nat) :
    ∀ cs : List String, (∀ c ∈ cs, (run c).rc = 0) → mmRun run code cs = ⟨cs, [], [], none⟩ := by
  intro cs
  induction cs with
  | nil => intro _; rfl
  | cons c rest ih =>
      intro hall
      have hc : (run c).rc = 0 := hall c (by simp)
      have hr := ih (fun x hx => hall x (by simp [hx]))
      simp [mmRun, hc, hr]

theorem mmRun_first_fail (run : String → CmdResult) (code : Nat) :
    ∀ (cs : List String) (k : Nat), k < cs.length →
      (run (cs.getD k "")).rc ≠ 0 →
      (∀ j, j < k → (run (cs.getD j "")).rc = 0) →
      mmRun run code cs =
        ⟨cs.take (k + 1), [],
         ["Failed: " ++ cs.getD k "" ++ "\n" ++ (run (cs.getD k "")).err], some code⟩ := by
  intro cs
  induction cs with
  | nil => intro k hk _ _; simp at hk
  | cons c rest ih =>
      intro k hk hf hok
      cases k with
      | zero =>
          simp only [List.getD_cons_zero] at hf ⊢
          simp [mmRun, hf]
      | succ k' =>
          have hc : (run c).rc = 0 := by simpa using hok 0 (Nat.succ_pos _)
          have hrest := ih k' (by simpa using hk) (by simpa using hf)
            (fun j hj => by simpa using hok (j + 1) (by omega))
          simp [mmRun, hc, hrest]

theorem do_monmode_spec (system : String) (act : MMAction) (iface : String)
    (run : String → CmdResult) :
    (lowerStr system ≠ "linux" →
        do_monmode system act iface run =
          ⟨[], [], ["Monitor mode helper is Linux-only."], some 11⟩) ∧
    (lowerStr system = "linux" →
        ((∀ c ∈ monCmds act iface, (run c).rc = 0) →
            (do_monmode system act iface run).cmdsRun = monCmds act iface ∧
            (do_monmode system act iface run).exit = none) ∧
        (∀ k, k < (monCmds act iface).length →
            (run ((monCmds act iface).getD k "")).rc ≠ 0 →
            (∀ j, j < k → (run ((monCmds act iface).getD j "")).rc = 0) →
            (do_monmode system act iface run).cmdsRun = (monCmds act iface).take (k + 1) ∧
            (do_monmode system act iface run).exit = some (mmExitCode act) ∧
            (do_monmode system act iface run).stderr =
              ["Failed: " ++ (monCmds act iface).getD k "" ++ "\n" ++
                (run ((monCmds act iface).getD k "")).err])) := by
  constructor
  · intro h
    simp [do_monmode, h]
  · intro h
    constructor
    · intro hall
      cases act with
      | enable =>
          have e := mmRun_all_ok run 8 (monCmds .enable iface) hall
          simp [do_monmode, h, linux_monitor_mode_enable, e]
      | disable =>
          have e := mmRun_all_ok run 9 (monCmds .disable iface) hall
          simp [do_monmode, h, linux_monitor_mode_disable, e]
    · intro k hk hf hok
      cases act with
      | enable =>
          have e := mmRun_first_fail run 8 (monCmds .enable iface) k hk hf hok
          simp [do_monmode, h, linux_monitor_mode_enable, e, mmExitCode]
      | disable =>
          have e := mmRun_first_fail run 9 (monCmds .disable iface) k hk hf hok
          simp [do_monmode, h, linux_monitor_mode_disable, e, mmExitCode]

/-- Witness for C4: on Linux with the second command failing, only the
first two commands run and the process exits 8 with the stderr surfaced. -/
theorem do_monmode_spec_witness :
    (do_monmode "Linux" MMAction.enable "wlan0" wtRun).cmdsRun =
      (monCmds MMAction.enable "wlan0").take 2 ∧
    (do_monmode "Linux" MMAction.enable "wlan0" wtRun).exit =
      some (mmExitCode MMAction.enable) ∧
    (do_monmode "Linux" MMAction.enable "wlan0" wtRun).stderr =
      ["Failed: " ++ (monCmds MMAction.enable "wlan0").getD 1 "" ++ "\n" ++
        (wtRun ((monCmds MMAction.enable "wlan0").getD 1 "")).err] := by
  have h := ((do_monmode_spec "Linux" MMAction.enable "wlan0" wtRun).2 (by decide)).2 1
    (by decide) (by decide)
    (fun j hj => by
      have hj0 : j = 0 := Nat.lt_one_iff.mp hj
      subst hj0
      decide)
  exact ⟨h.1, h.2.1, h.2.2⟩

theorem collectWifi_eq_filter (names : List String) :
    collectWifi names = names.filter wifiName := by
  induction names with
  | nil => rfl
  | cons n rest ih =>
      by_cases h : wifiName n = true <;> simp [collectWifi, List.filter, h, ih]

/-- C6: the interface classifier returns exactly the matching subsequence
(in original order) when at least one name matches the wireless-like
criterion, and returns the input unchanged when none matches; it is a pure
function of the name list. -/
theorem detect_wifi_spec (names : List String) :
    ((∃ n ∈ names, wifiName n = true) →
        detect_wifi_like_interfaces names = names.filter wifiName ∧
        (detect_wifi_like_interfaces names).Sublist names) ∧
    ((∀ n ∈ names, wifiName n = false) →
        detect_wifi_like_interfaces names = names) := by
  constructor
  · rintro ⟨n, hn, hw⟩
    have hne : names.filter wifiName ≠ [] := by
      intro hemp
      exact absurd hw (by simpa using List.filter_eq_nil_iff.mp hemp n hn)
    unfold detect_wifi_like_interfaces
    rw [collectWifi_eq_filter, if_neg hne]
    exact ⟨rfl, List.filter_sublist names⟩
  · intro hall
    have hemp : names.filter wifiName = [] :=
      List.filter_eq_nil_iff.mpr (fun a ha => by simp [hall a ha])
    unfold detect_wifi_like_interfaces
    rw [collectWifi_eq_filter, if_pos hemp]

/-- Witness for C6: a matching input keeps exactly the matching names in
order; an input with no wireless-like name is returned unchanged. -/
theorem detect_wifi_spec_witness :
    detect_wifi_like_interfaces ["eth0", "wlan0", "lo", "wlp3s0"] =
      (["eth0", "wlan0", "lo", "wlp3s0"] : List String).filter wifiName ∧
    detect_wifi_like_interfaces ["eth0", "lo"] = ["eth0", "lo"] :=
  ⟨((detect_wifi_spec ["eth0", "wlan0", "lo", "wlp3s0"]).1
      ⟨"wlan0", by decide, by decide⟩).1,
   (detect_wifi_spec ["eth0", "lo"]).2 (by decide)⟩

theorem lookupCtr_eq_none (s : String) (l : List (String × Int × Int))
    (h : ∀ p ∈ l, p.1 ≠ s) : lookupCtr s l = none := by
  induction l with
  | nil => rfl
  | cons p rest ih =>
      have hp : ¬ (p.1 == s) = true := by simpa using h p (by simp)
      cases p with
      | mk k v =>
          simp only [lookupCtr]
          rw [if_neg (by simpa using hp)]
          exact ih (fun q hq => h q (by simp [hq]))

/-- C9: reading counters for a name that is not among the enumerated
interfaces fails with the ValueError of line 32, and its message carries
the full comma-separated list of available interface names (it is a suffix
of the message text). -/
theorem get_iface_counters_notfound (name : String) (counters : List (String × Int × Int))
    (h : ∀ p ∈ counters, p.1 ≠ name) :
    get_iface_counters (.str name) counters =
      .error (.valueError (availMsg (.str name) counters)) ∧
    (String.intercalate ", " (counters.map Prod.fst)).data <:+
      (availMsg (.str name) counters).data := by
  constructor
  · simp [get_iface_counters, lookupCtr_eq_none name counters h]
  · show _ <:+ (("Interface '" ++ pyRender (.str name) ++ "' not found. Available: ") ++
      String.intercalate ", " (counters.map Prod.fst)).data
    exact List.suffix_append _ _

/-- Witness for C9: a concrete missing name produces the ValueError whose
message ends with the joined list of the two available interfaces. -/
theorem get_iface_counters_notfound_witness :
    get_iface_counters (.str "wlan1") [("eth0", 1, 2), ("lo", 3, 4)] =
      .error (.valueError "Interface 'wlan1' not found. Available: eth0, lo") ∧
    ("eth0, lo".data <:+ "Interface 'wlan1' not found. Available: eth0, lo".data) := by
  have h := get_iface_counters_notfound "wlan1" [("eth0", 1, 2), ("lo", 3, 4)] (by decide)
  exact ⟨h.1.trans (by decide), by simpa using h.2⟩

theorem hbGo_zero (f : ℚ) (i : Nat) : hbGo f i 0 = (f, i) := rfl

theorem hbGo_succ (f : ℚ) (i fuel : Nat) :
    hbGo f i (fuel + 1) = if 1024 ≤ f then hbGo (f / 1024) (i + 1) fuel else (f, i) := rfl

theorem hbGo_char (n : ℚ) :
    hbGo n 0 (sizes.length - 1) = (n / 1024 ^ hbIdx n, hbIdx n) := by
  have hp : (0:ℚ) < 1024 := by norm_num
  have e2 : n / 1024 / 1024 = n / 1024 ^ 2 := by rw [div_div]; norm_num
  have e3 : n / 1024 / 1024 / 1024 = n / 1024 ^ 3 := by rw [div_div, div_div]; norm_num
  have e4 : n / 1024 / 1024 / 1024 / 1024 = n / 1024 ^ 4 := by
    rw [div_div, div_div, div_div]; norm_num
  show hbGo n 0 4 = _
  by_cases h1 : n < 1024
  · rw [show (4:Nat) = 3 + 1 from rfl, hbGo_succ, if_neg (not_le.mpr h1)]
    simp [hbIdx, h1]
  · have c1 : 1024 ≤ n := not_lt.mp h1
    by_cases h2 : n < 1024 ^ 2
    · have d1 : ¬ 1024 ≤ n / 1024 := by
        rw [not_le, div_lt_iff₀ hp]
        calc n < 1024 ^ 2 := h2
        _ = 1024 * 1024 := by norm_num
      rw [show (4:Nat) = 3 + 1 from rfl, hbGo_succ, if_pos c1,
          show (3:Nat) = 2 + 1 from rfl, hbGo_succ, if_neg d1]
      simp [hbIdx, h1, h2, pow_one]
    · have c2 : 1024 ≤ n / 1024 := by
        rw [le_div_iff₀ hp]
        calc (1024:ℚ) * 1024 = 1024 ^ 2 := by norm_num
        _ ≤ n := not_lt.mp h2
      by_cases h3 : n < 1024 ^ 3
      · have d2 : ¬ 1024 ≤ n / 1024 / 1024 := by
          rw [e2, not_le, div_lt_iff₀ (by positivity)]
          calc n < 1024 ^ 3 := h3
          _ = 1024 * 1024 ^ 2 := by norm_num
        rw [show (4:Nat) = 3 + 1 from rfl, hbGo_succ, if_pos c1,
            show (3:Nat) = 2 + 1 from rfl, hbGo_succ, if_pos c2,
            show (2:Nat) = 1 + 1 from rfl, hbGo_succ, if_neg d2, e2]
        simp [hbIdx, h1, h2, h3]
      · have c3 : 1024 ≤ n / 1024 / 1024 := by
          rw [e2, le_div_iff₀ (by positivity)]
          calc (1024:ℚ) * 1024 ^ 2 = 1024 ^ 3 := by norm_num
          _ ≤ n := not_lt.mp h3
        by_cases h4 : n < 1024 ^ 4
        · have d3 : ¬ 1024 ≤ n / 1024 / 1024 / 1024 := by
            rw [e3, not_le, div_lt_iff₀ (by positivity)]
            calc n < 1024 ^ 4 := h4
            _ = 1024 * 1024 ^ 3 := by norm_num
          rw [show (4:Nat) = 3 + 1 from rfl, hbGo_succ, if_pos c1,
              show (3:Nat) = 2 + 1 from rfl, hbGo_succ, if_pos c2,
              show (2:Nat) = 1 + 1 from rfl, hbGo_succ, if_pos c3,
              show (1:Nat) = 0 + 1 from rfl, hbGo_succ, if_neg d3, e3]
          simp [hbIdx, h1, h2, h3, h4]
        · have c4 : 1024 ≤ n / 1024 / 1024 / 1024 := by
            rw [e3, le_div_iff₀ (by positivity)]
            calc (1024:ℚ) * 1024 ^ 3 = 1024 ^ 4 := by norm_num
            _ ≤ n := not_lt.mp h4
          rw [show (4:Nat) = 3 + 1 from rfl, hbGo_succ, if_pos c1,
              show (3:Nat) = 2 + 1 from rfl, hbGo_succ, if_pos c2,
              show (2:Nat) = 1 + 1 from rfl, hbGo_succ, if_pos c3,
              show (1:Nat) = 0 + 1 from rfl, hbGo_succ, if_pos c4, hbGo_zero, e4]
          simp [hbIdx, h1, h2, h3, h4]

theorem hbGo_snd_le : ∀ (fuel : Nat) (f : ℚ) (i : Nat), (hbGo f i fuel).2 ≤ i + fuel := by
  intro fuel
  induction fuel with
  | zero => intro f i; simp [hbGo_zero]
  | succ fuel ih =>
      intro f i
      rw [hbGo_succ]
      by_cases h : 1024 ≤ f
      · rw [if_pos h]
        exact le_trans (ih (f / 1024) (i + 1)) (by omega)
      · rw [if_neg h]
        show i ≤ i + (fuel + 1)
        omega

theorem rndHalfEven_intCast (m : Int) : rndHalfEven (m : ℚ) = m := by
  unfold rndHalfEven
  rw [Int.floor_intCast]
  norm_num

theorem formatTwoDec_exact (q : ℚ) (a b : Nat) (hb : b < 100)
    (hq : q * 100 = a * 100 + b) :
    formatTwoDec q = toString a ++ "." ++ twoDigits b := by
  have hq0 : ¬ q < 0 := by
    intro hneg
    have h1 : q * 100 < 0 := by nlinarith
    have h2 : (0:ℚ) ≤ (a:ℚ) * 100 + (b:ℚ) := by positivity
    rw [hq] at h1
    linarith
  have hcast : q * 100 = ((a * 100 + b : Nat) : ℚ) := by
    rw [hq]; push_cast; ring
  have hint : ((a * 100 + b : Nat) : ℚ) = (((a * 100 + b : Nat) : Int) : ℚ) := by
    push_cast; ring
  simp only [formatTwoDec, if_neg hq0]
  rw [hcast, hint, rndHalfEven_intCast]
  have htn : (((a * 100 + b : Nat) : Int)).toNat = a * 100 + b := rfl
  rw [htn]
  have hdiv : (a * 100 + b) / 100 = a := by omega
  have hmod : (a * 100 + b) % 100 = b := by omega
  rw [hdiv, hmod]

theorem human_bytes_closed (n : ℚ) :
    human_bytes n = formatTwoDec (n / 1024 ^ hbIdx n) ++ " " ++ sizes.getD (hbIdx n) "" := by
  simp only [human_bytes]
  rw [hbGo_char n]

/-- C5: for every non-negative byte count the formatter emits the value
scaled into the unit whose index is the number of divisions by 1024 (at
most four, never past TB), rendered with two decimals and the matching
suffix; and the five reference values come out exactly as specified. -/
theorem human_bytes_spec :
    (∀ n : ℚ, 0 ≤ n →
        hbIdx n ≤ 4 ∧
        human_bytes n =
          formatTwoDec (n / 1024 ^ hbIdx n) ++ " " ++ sizes.getD (hbIdx n) "") ∧
    human_bytes 0 = "0.00 B" ∧
    human_bytes 1024 = "1.00 KB" ∧
    human_bytes 1536 = "1.50 KB" ∧
    human_bytes (1024 ^ 4) = "1.00 TB" ∧
    human_bytes (1024 ^ 5) = "1024.00 TB" := by
  have hidx : ∀ n : ℚ, hbIdx n ≤ 4 := by
    intro n; unfold hbIdx; split_ifs <;> norm_num
  refine ⟨fun n _hn => ⟨hidx n, human_bytes_closed n⟩, ?_, ?_, ?_, ?_, ?_⟩
  · rw [human_bytes_closed 0, show hbIdx 0 = 0 by norm_num [hbIdx],
        formatTwoDec_exact ((0:ℚ) / 1024 ^ 0) 0 0 (by norm_num) (by push_cast; norm_num)]
    rfl
  · rw [human_bytes_closed 1024, show hbIdx 1024 = 1 by norm_num [hbIdx],
        formatTwoDec_exact ((1024:ℚ) / 1024 ^ 1) 1 0 (by norm_num) (by push_cast; norm_num)]
    rfl
  · rw [human_bytes_closed 1536, show hbIdx 1536 = 1 by norm_num [hbIdx],
        formatTwoDec_exact ((1536:ℚ) / 1024 ^ 1) 1 50 (by norm_num) (by push_cast; norm_num)]
    rfl
  · rw [human_bytes_closed (1024 ^ 4),
        show hbIdx (1024 ^ 4) = 4 by norm_num [hbIdx],
        formatTwoDec_exact ((1024:ℚ) ^ 4 / 1024 ^ 4) 1 0 (by norm_num) (by push_cast; norm_num)]
    rfl
  · rw [human_bytes_closed (1024 ^ 5),
        show hbIdx (1024 ^ 5) = 4 by norm_num [hbIdx],
        formatTwoDec_exact ((1024:ℚ) ^ 5 / 1024 ^ 4) 1024 0 (by norm_num) (by push_cast; norm_num)]
    rfl

/-- Witness for C5: the general clause applied at 1536 bytes. -/
theorem human_bytes_spec_witness :
    hbIdx 1536 ≤ 4 ∧
    human_bytes 1536 =
      formatTwoDec (1536 / 1024 ^ hbIdx 1536) ++ " " ++ sizes.getD (hbIdx 1536) "" :=
  human_bytes_spec.1 1536 (by norm_num)

/-- C10: the scaling loop of human_bytes terminates after at most
len(sizes) - 1 = 4 divisions (the unit index, incremented once per
iteration, never exceeds the bound), and the resulting index is exactly
the closed-form hbIdx; human_bytes is total on its domain. -/
theorem human_bytes_loop_bound (n : ℚ) (_hn : 0 ≤ n) :
    (hbGo n 0 (sizes.length - 1)).2 ≤ sizes.length - 1 ∧
    (hbGo n 0 (sizes.length - 1)).2 = hbIdx n := by
  refine ⟨?_, by rw [hbGo_char n]⟩
  simpa using hbGo_snd_le (sizes.length - 1) n 0

/-- Witness for C10: the loop bound at the largest reference input. -/
theorem human_bytes_loop_bound_witness :
    (hbGo (1024 ^ 5) 0 (sizes.length - 1)).2 ≤ sizes.length - 1 ∧
    (hbGo (1024 ^ 5) 0 (sizes.length - 1)).2 = hbIdx (1024 ^ 5) :=
  human_bytes_loop_bound (1024 ^ 5) (by norm_num)

/-- C7: each sampling iteration computes the down and up rates as the raw
counter deltas divided by the interval, and on the reference snapshots
(previous rx 1000 tx 500, current rx 1500 tx 800, interval 1) yields
500 B/s down and 300 B/s up, formatted accordingly. -/
theorem sampleStep_rates (prev cur : Snapshot) (interval : ℚ) :
    (sampleStep prev cur interval).downRate = ((cur.rx - prev.rx : Int) : ℚ) / interval ∧
    (sampleStep prev cur interval).upRate = ((cur.tx - prev.tx : Int) : ℚ) / interval ∧
    (sampleStep ⟨1000, 500⟩ ⟨1500, 800⟩ 1).downRate = 500 ∧
    (sampleStep ⟨1000, 500⟩ ⟨1500, 800⟩ 1).upRate = 300 ∧
    (sampleStep ⟨1000, 500⟩ ⟨1500, 800⟩ 1).downStr = "500.00 B/s" ∧
    (sampleStep ⟨1000, 500⟩ ⟨1500, 800⟩ 1).upStr = "300.00 B/s" := by
  have h500 : ((1500 - 1000 : Int) : ℚ) / 1 = 500 := by norm_num
  have h300 : ((800 - 500 : Int) : ℚ) / 1 = 300 := by norm_num
  have hb500 : human_bytes 500 = "500.00 B" := by
    rw [human_bytes_closed 500, show hbIdx 500 = 0 by norm_num [hbIdx],
        formatTwoDec_exact ((500:ℚ) / 1024 ^ 0) 500 0 (by norm_num) (by push_cast; norm_num)]
    rfl
  have hb300 : human_bytes 300 = "300.00 B" := by
    rw [human_bytes_closed 300, show hbIdx 300 = 0 by norm_num [hbIdx],
        formatTwoDec_exact ((300:ℚ) / 1024 ^ 0) 300 0 (by norm_num) (by push_cast; norm_num)]
    rfl
  refine ⟨rfl, rfl, h500, h300, ?_, ?_⟩
  · show human_bytes (((1500 - 1000 : Int) : ℚ) / 1) ++ "/s" = "500.00 B/s"
    rw [h500, hb500]
    rfl
  · show human_bytes (((800 - 500 : Int) : ℚ) / 1) ++ "/s" = "300.00 B/s"
    rw [h300, hb300]
    rfl

/-- C8: when the current snapshot is smaller than the previous one
(counter reset), the delta computation performs no clamping: the emitted
rate is negative (here exactly -500 B/s). -/
theorem sampleStep_negative_delta :
    (Snapshot.mk 500 200).rx < (Snapshot.mk 1000 500).rx ∧
    (sampleStep ⟨1000, 500⟩ ⟨500, 200⟩ 1).downRate = -500 ∧
    (sampleStep ⟨1000, 500⟩ ⟨500, 200⟩ 1).downRate < 0 := by
  have h : ((500 - 1000 : Int) : ℚ) / 1 = -500 := by norm_num
  refine ⟨by norm_num, h, ?_⟩
  show ((500 - 1000 : Int) : ℚ) / 1 < 0
  rw [h]
  norm_num

end WifiMonitor
